import Mathlib

/- Verification development for the polyglot bridge of the philjs repository
   (packages/philjs-polyglot/src/bridge.py).

   The bridge is a line-oriented worker: it reads JSON commands from its input
   stream, dispatches each against the module-level execution context, and
   writes one JSON response line per command.  The embedding below models the
   runtime values the bridge manipulates, the fragment of Python needed by the
   commands the design document exercises, and the two functions of bridge.py
   (handle_command and main) translated clause by clause. -/

namespace Bridge

/-- Expressions of the Python fragment that `exec`/`eval` code strings are
drawn from: integer literals, names, and binary `+`. -/
inductive PyExpr where
  | lit (n : Nat)
  | name (x : String)
  | add (a b : PyExpr)

/-- Statements of the Python fragment: a one-line function definition
(`def f(xs): return e`), an assignment, or a bare expression statement. -/
inductive PyStmt where
  | defFun (f : String) (params : List String) (body : PyExpr)
  | assign (x : String) (e : PyExpr)
  | exprStmt (e : PyExpr)

/-- A raised Python exception: its class name and the text `str(e)` yields. -/
structure PyErr where
  name : String
  msg : String

/-- Python runtime values as the bridge sees them: the values JSON decodes to
(`None`, booleans, integers, strings, lists, string-keyed dicts), plus the
values living in the module namespace — user functions created by `def`,
the bridge's own functions, imported modules, and exception objects (which
the `except` clause passes to `str`).  JSON numbers are modelled as
integers; floats play no role in the bridge. -/
inductive PyVal where
  | none
  | bool (b : Bool)
  | int (n : Int)
  | str (s : String)
  | list (xs : List PyVal)
  | dict (entries : List (String × PyVal))
  | func (f : String) (params : List String) (body : PyExpr)
  | builtin (f : String)
  | module (m : String)
  | exc (e : PyErr)

/-- The Python type name of a value, as used in diagnostic messages. -/
def typeName : PyVal → String
  | PyVal.none => "NoneType"
  | PyVal.bool _ => "bool"
  | PyVal.int _ => "int"
  | PyVal.str _ => "str"
  | PyVal.list _ => "list"
  | PyVal.dict _ => "dict"
  | PyVal.func _ _ _ => "function"
  | PyVal.builtin _ => "builtin_function_or_method"
  | PyVal.module _ => "module"
  | PyVal.exc e => e.name

/-- Python truthiness, as tested by `if not func:` in handle_command. -/
def truthy : PyVal → Bool
  | PyVal.none => false
  | PyVal.bool b => b
  | PyVal.int n => n != 0
  | PyVal.str s => s != ""
  | PyVal.list xs => !xs.isEmpty
  | PyVal.dict es => !es.isEmpty
  | PyVal.func _ _ _ => true
  | PyVal.builtin _ => true
  | PyVal.module _ => true
  | PyVal.exc _ => true

mutual

/-- Whether `json.dumps` accepts the value: exactly the JSON-shaped values
(`None`, bool, int, str, list, string-keyed dict) serialize; functions,
builtins and modules do not. -/
def serializable : PyVal → Bool
  | PyVal.none => true
  | PyVal.bool _ => true
  | PyVal.int _ => true
  | PyVal.str _ => true
  | PyVal.list xs => serializableL xs
  | PyVal.dict es => serializableD es
  | PyVal.func _ _ _ => false
  | PyVal.builtin _ => false
  | PyVal.module _ => false
  | PyVal.exc _ => false

/-- `serializable` over the elements of a list value. -/
def serializableL : List PyVal → Bool
  | [] => true
  | x :: xs => serializable x && serializableL xs

/-- `serializable` over the values of a dict value. -/
def serializableD : List (String × PyVal) → Bool
  | [] => true
  | (_, v) :: es => serializable v && serializableD es

end

mutual

/-- Python `repr` of a value, used when values are interpolated into
messages; machine addresses that `repr` prints for functions are elided. -/
def pyRepr : PyVal → String
  | PyVal.none => "None"
  | PyVal.bool b => if b then "True" else "False"
  | PyVal.int n => toString n
  | PyVal.str s => "\x27" ++ s ++ "\x27"
  | PyVal.list xs => "[" ++ pyReprL xs ++ "]"
  | PyVal.dict es => "\x7b" ++ pyReprD es ++ "\x7d"
  | PyVal.func f _ _ => "<function " ++ f ++ ">"
  | PyVal.builtin f => "<built-in function " ++ f ++ ">"
  | PyVal.module m => "<module \x27" ++ m ++ "\x27>"
  | PyVal.exc e => e.name ++ "(\x27" ++ e.msg ++ "\x27)"

/-- `pyRepr` over list elements, comma separated. -/
def pyReprL : List PyVal → String
  | [] => ""
  | [x] => pyRepr x
  | x :: xs => pyRepr x ++ ", " ++ pyReprL xs

/-- `pyRepr` over dict entries, comma separated. -/
def pyReprD : List (String × PyVal) → String
  | [] => ""
  | [(k, v)] => "\x27" ++ k ++ "\x27: " ++ pyRepr v
  | (k, v) :: es => "\x27" ++ k ++ "\x27: " ++ pyRepr v ++ ", " ++ pyReprD es

end

/-- Python `str` of a value, as f-strings use it; for an exception object,
`str` yields its message. -/
def pyStr : PyVal → String
  | PyVal.str s => s
  | PyVal.exc e => e.msg
  | v => pyRepr v

/-- First binding of a key in an insertion-ordered string-keyed mapping;
used both for Python dict reads and for name lookup in the module namespace. -/
def lookupEntries : List (String × PyVal) → String → Option PyVal
  | [], _ => Option.none
  | (k, v) :: rest, key => if k = key then some v else lookupEntries rest key

/-- Write a key in an insertion-ordered mapping: replace the binding in
place when the key exists, append it otherwise — Python dict assignment. -/
def setEntries : List (String × PyVal) → String → PyVal → List (String × PyVal)
  | [], key, v => [(key, v)]
  | (k, w) :: rest, key, v =>
      if k = key then (k, v) :: rest else (k, w) :: setEntries rest key v

/-- The shared execution context: the module's global namespace, an
insertion-ordered mapping from name to value. -/
abbrev Ctx := List (String × PyVal)

/-- Python subscripting `v[key]` with a string key: a dict lookup that raises
`KeyError` when the key is missing and `TypeError` on a non-dict. -/
def getItem (v : PyVal) (key : String) : Except PyErr PyVal :=
  match v with
  | PyVal.dict es =>
      match lookupEntries es key with
      | some x => Except.ok x
      | Option.none => Except.error ⟨("KeyError"), "\x27" ++ key ++ "\x27"⟩
  | other =>
      Except.error ⟨("TypeError"), "\x27" ++ typeName other ++ "\x27 object is not subscriptable"⟩

/-- Python `v.get(key)` on a dict (default `None`); on any non-dict value the
attribute access itself raises `AttributeError`. -/
def pyDictGet (v : PyVal) (key : String) : Except PyErr PyVal :=
  match v with
  | PyVal.dict es => Except.ok ((lookupEntries es key).getD PyVal.none)
  | other =>
      Except.error
        ⟨("AttributeError"), "\x27" ++ typeName other ++ "\x27 object has no attribute \x27get\x27"⟩

/-- Python item assignment `d[key] = v`: raises `TypeError` on a non-dict. -/
def setItem (d : PyVal) (key : String) (v : PyVal) : Except PyErr PyVal :=
  match d with
  | PyVal.dict es => Except.ok (PyVal.dict (setEntries es key v))
  | other =>
      Except.error
        ⟨("TypeError"), "\x27" ++ typeName other ++ "\x27 object does not support item assignment"⟩

/- ## Lexing and parsing of the Python code fragment

   Modelled from the spec: the `exec`/`eval` builtins the bridge applies to
   caller-supplied `code` strings are part of the Python runtime, not of the
   repository; they are modelled here over the statement/expression fragment
   the design document exercises (function definitions of the form
   `def f(xs): return e`, assignments, names, integer literals and `+`).
   Code outside the fragment is reported as a `SyntaxError`, exactly as the
   real interpreter reports code outside its own grammar. -/

/-- Tokens of the code fragment. -/
inductive Tok where
  | ident (s : String)
  | num (n : Nat)
  | lparen
  | rparen
  | colon
  | comma
  | plus
  | assign
  | kwdef
  | kwreturn

/-- Classify a completed word as a keyword or an identifier. -/
def keywordTok (s : String) : Tok :=
  if s = "def" then Tok.kwdef
  else if s = "return" then Tok.kwreturn
  else Tok.ident s

/-- Single-character symbol tokens. -/
def symTok (c : Char) : Option Tok :=
  if c = '(' then some Tok.lparen
  else if c = ')' then some Tok.rparen
  else if c = ':' then some Tok.colon
  else if c = ',' then some Tok.comma
  else if c = '+' then some Tok.plus
  else if c = '=' then some Tok.assign
  else Option.none

/-- First character of a Python identifier. -/
def isIdentStart (c : Char) : Bool := c.isAlpha || c = '_'

/-- Subsequent character of a Python identifier. -/
def isIdentChar (c : Char) : Bool := c.isAlphanum || c = '_'

/-- Lexer state: between tokens, inside an identifier (characters held in
reverse), or inside a number (value accumulated directly). -/
inductive LexSt where
  | start
  | inIdent (acc : List Char)
  | inNum (acc : Nat)

/-- Emit the token held by the lexer state, if any, onto the output stack. -/
def flushTok : LexSt → List Tok → List Tok
  | LexSt.start, out => out
  | LexSt.inIdent acc, out => keywordTok (String.mk acc.reverse) :: out
  | LexSt.inNum n, out => Tok.num n :: out

/-- One-pass lexer over the characters of a code string; `Option.none` marks
a character outside the fragment. -/
def tokenizeGo : LexSt → List Tok → List Char → Option (List Tok)
  | st, out, [] => some (flushTok st out).reverse
  | LexSt.start, out, c :: cs =>
      if c = ' ' then tokenizeGo LexSt.start out cs
      else if c.isDigit then tokenizeGo (LexSt.inNum (c.toNat - 48)) out cs
      else if isIdentStart c then tokenizeGo (LexSt.inIdent [c]) out cs
      else
        match symTok c with
        | some t => tokenizeGo LexSt.start (t :: out) cs
        | Option.none => Option.none
  | LexSt.inIdent acc, out, c :: cs =>
      if isIdentChar c then tokenizeGo (LexSt.inIdent (c :: acc)) out cs
      else if c = ' ' then tokenizeGo LexSt.start (flushTok (LexSt.inIdent acc) out) cs
      else
        match symTok c with
        | some t => tokenizeGo LexSt.start (t :: flushTok (LexSt.inIdent acc) out) cs
        | Option.none => Option.none
  | LexSt.inNum n, out, c :: cs =>
      if c.isDigit then tokenizeGo (LexSt.inNum (n * 10 + (c.toNat - 48))) out cs
      else if isIdentChar c then Option.none
      else if c = ' ' then tokenizeGo LexSt.start (flushTok (LexSt.inNum n) out) cs
      else
        match symTok c with
        | some t => tokenizeGo LexSt.start (t :: flushTok (LexSt.inNum n) out) cs
        | Option.none => Option.none

/-- Tokenize a code string. -/
def tokenize (s : String) : Option (List Tok) :=
  tokenizeGo LexSt.start [] s.toList

/-- Fold the remaining `+ atom` pairs of a sum, left associated. -/
def parseSumAux : PyExpr → List Tok → Option PyExpr
  | acc, [] => some acc
  | acc, Tok.plus :: Tok.num n :: rest => parseSumAux (PyExpr.add acc (PyExpr.lit n)) rest
  | acc, Tok.plus :: Tok.ident x :: rest => parseSumAux (PyExpr.add acc (PyExpr.name x)) rest
  | _, _ => Option.none

/-- Read a whole token list as one expression. -/
def parseExprToks : List Tok → Option PyExpr
  | Tok.num n :: rest => parseSumAux (PyExpr.lit n) rest
  | Tok.ident x :: rest => parseSumAux (PyExpr.name x) rest
  | _ => Option.none

/-- Read a parameter list up to and including the closing parenthesis. -/
def parseParams : List Tok → Option (List String × List Tok)
  | Tok.rparen :: rest => some ([], rest)
  | Tok.ident x :: Tok.rparen :: rest => some ([x], rest)
  | Tok.ident x :: Tok.comma :: rest =>
      match parseParams rest with
      | some (ps, r) => some (x :: ps, r)
      | Option.none => Option.none
  | _ => Option.none

/-- Read a whole token list as one statement of the fragment. -/
def parseStmtToks : List Tok → Option PyStmt
  | Tok.kwdef :: Tok.ident f :: Tok.lparen :: rest =>
      (match parseParams rest with
       | some (ps, Tok.colon :: Tok.kwreturn :: body) =>
           match parseExprToks body with
           | some e => some (PyStmt.defFun f ps e)
           | Option.none => Option.none
       | _ => Option.none)
  | Tok.ident x :: Tok.assign :: rest =>
      (match parseExprToks rest with
       | some e => some (PyStmt.assign x e)
       | Option.none => Option.none)
  | toks =>
      match parseExprToks toks with
      | some e => some (PyStmt.exprStmt e)
      | Option.none => Option.none

/-- Python binary `+` on runtime values: integer addition, string and list
concatenation; anything else raises `TypeError`. -/
def addVals : PyVal → PyVal → Except PyErr PyVal
  | PyVal.int a, PyVal.int b => Except.ok (PyVal.int (a + b))
  | PyVal.str a, PyVal.str b => Except.ok (PyVal.str (a ++ b))
  | PyVal.list a, PyVal.list b => Except.ok (PyVal.list (a ++ b))
  | a, b =>
      Except.error
        ⟨("TypeError"),
          "unsupported operand type(s) for +: \x27" ++ typeName a ++ "\x27 and \x27" ++
            typeName b ++ "\x27"⟩

/-- Evaluate an expression of the fragment: locals first, then the module
globals, as inside a function body executed at module level. -/
def evalExpr (locs : List (String × PyVal)) (g : Ctx) : PyExpr → Except PyErr PyVal
  | PyExpr.lit n => Except.ok (PyVal.int n)
  | PyExpr.name x =>
      (match lookupEntries locs x with
       | some v => Except.ok v
       | Option.none =>
           match lookupEntries g x with
           | some v => Except.ok v
           | Option.none =>
               Except.error ⟨("NameError"), "name \x27" ++ x ++ "\x27 is not defined"⟩)
  | PyExpr.add a b =>
      match evalExpr locs g a with
      | Except.error e => Except.error e
      | Except.ok va =>
          match evalExpr locs g b with
          | Except.error e => Except.error e
          | Except.ok vb => addVals va vb

/-- Execute one statement against the module globals, returning the updated
globals: `def` and assignment bind a name, an expression statement is
evaluated for effect and its value discarded. -/
def execStmt (g : Ctx) : PyStmt → Except PyErr Ctx
  | PyStmt.defFun f ps body => Except.ok (setEntries g f (PyVal.func f ps body))
  | PyStmt.assign x e =>
      (match evalExpr [] g e with
       | Except.error err => Except.error err
       | Except.ok v => Except.ok (setEntries g x v))
  | PyStmt.exprStmt e =>
      match evalExpr [] g e with
      | Except.error err => Except.error err
      | Except.ok _ => Except.ok g

/-- Modelled from the spec: the Python `exec` builtin applied to a code
string and `globals()`, restricted to the statement fragment; code outside
the fragment raises `SyntaxError`. -/
def pyExecStr (code : String) (g : Ctx) : Except PyErr Ctx :=
  match tokenize code with
  | Option.none => Except.error ⟨("SyntaxError"), "invalid syntax"⟩
  | some toks =>
      match parseStmtToks toks with
      | Option.none => Except.error ⟨("SyntaxError"), "invalid syntax"⟩
      | some s => execStmt g s

/-- Modelled from the spec: the Python `eval` builtin applied to a code
string and `globals()`; `eval` accepts a single expression only. -/
def pyEvalStr (code : String) (g : Ctx) : Except PyErr PyVal :=
  match tokenize code with
  | Option.none => Except.error ⟨("SyntaxError"), "invalid syntax"⟩
  | some toks =>
      match parseExprToks toks with
      | Option.none => Except.error ⟨("SyntaxError"), "invalid syntax"⟩
      | some e => evalExpr [] g e

/-- Bind the positional arguments of a call to the parameters of a user
function; an arity mismatch raises `TypeError`, as `func(*args)` does. -/
def bindParams (f : String) : List String → List PyVal → Except PyErr (List (String × PyVal))
  | [], [] => Except.ok []
  | p :: ps, a :: rest =>
      (match bindParams f ps rest with
       | Except.ok locs => Except.ok ((p, a) :: locs)
       | Except.error e => Except.error e)
  | _, _ =>
      Except.error
        ⟨("TypeError"), f ++ "() takes a different number of positional arguments"⟩

/-- Invoke a user function value on positional arguments: bind parameters,
then evaluate the `return` expression with the module globals in scope. -/
def callUserFunc (g : Ctx) (f : String) (ps : List String) (body : PyExpr)
    (args : List PyVal) : Except PyErr PyVal :=
  match bindParams f ps args with
  | Except.error e => Except.error e
  | Except.ok locs => evalExpr locs g body

/-- `globals().get(key)` where the key is an arbitrary decoded JSON value:
unhashable keys (lists, dicts) raise `TypeError`; hashable non-string keys
are simply absent, since the namespace is keyed by identifier strings. -/
def globalsGet (g : Ctx) (key : PyVal) : Except PyErr (Option PyVal) :=
  match key with
  | PyVal.str s => Except.ok (lookupEntries g s)
  | PyVal.list _ => Except.error ⟨("TypeError"), "unhashable type: \x27list\x27"⟩
  | PyVal.dict _ => Except.error ⟨("TypeError"), "unhashable type: \x27dict\x27"⟩
  | _ => Except.ok Option.none

/-- Whether a decoded value is the given string, as Python `==` tests it. -/
def isStrVal (v : PyVal) (s : String) : Bool :=
  match v with
  | PyVal.str t => t == s
  | _ => false

/-- The success response of `exec` (bridge.py line 9): status only. -/
def okResp : PyVal := PyVal.dict [("status", PyVal.str ("ok"))]

/-- A success response carrying a result (bridge.py lines 12 and 18). -/
def okRespWith (v : PyVal) : PyVal :=
  PyVal.dict [("status", PyVal.str ("ok")), ("result", v)]

/-- The fixed unknown-command response (bridge.py line 20). -/
def unknownResp : PyVal :=
  PyVal.dict [("status", PyVal.str ("error")), ("error", PyVal.str ("Unknown command"))]

/-- `traceback.format_exc()` for a caught exception; the frame listing is
abbreviated, the trailing class and message are kept. -/
def formatExc (e : PyErr) : String :=
  "Traceback (most recent call last):\n  ...\n" ++ e.name ++ ": " ++ e.msg

/-- The error response built by the handler's `except` clause (bridge.py
line 22): message from `str(e)` plus the formatted traceback. -/
def errResp (e : PyErr) : PyVal :=
  PyVal.dict
    [("status", PyVal.str ("error")), ("error", PyVal.str e.msg),
      ("traceback", PyVal.str (formatExc e))]

/-- `TypeError` for applying a non-callable value. -/
def notCallable (v : PyVal) : PyErr :=
  ⟨("TypeError"), "\x27" ++ typeName v ++ "\x27 object is not callable"⟩

mutual

/-- Structural size of a value; bounds the re-entrancy depth of the handler,
since a nested command passed through `args` is a strict sub-value. -/
def pySize : PyVal → Nat
  | PyVal.list xs => pySizeL xs + 1
  | PyVal.dict es => pySizeD es + 1
  | _ => 1

/-- `pySize` summed over list elements. -/
def pySizeL : List PyVal → Nat
  | [] => 0
  | x :: xs => pySize x + pySizeL xs

/-- `pySize` summed over dict values. -/
def pySizeD : List (String × PyVal) → Nat
  | [] => 0
  | (_, v) :: es => pySize v + pySizeD es

end

/-- Outcome of one handler invocation: a response together with the updated
globals; an exception that escaped the handler's own `except` clause; or
control having entered a re-entrant invocation of the bridge's `main`
through the shared input stream, `d` handler layers deep (the response for
the originating line can only be built after that nested loop finishes). -/
inductive HRes where
  | ok (g2 : Ctx) (resp : PyVal)
  | raised (e : PyErr)
  | mainCall (d : Nat)

/-- Outcome of the handler's `try` body, before the `except` clause. -/
inductive BodyRes where
  | bOk (g2 : Ctx) (resp : PyVal)
  | bErr (e : PyErr)
  | bMain (d : Nat)

/-- Outcome of applying a value to positional arguments inside the handler:
a return value (with the globals as the callee left them), a raised
exception, or entry into the bridge's `main` (`k` handler layers below the
caller). -/
inductive CallRes where
  | rOk (g2 : Ctx) (rv : PyVal)
  | rErr (e : PyErr)
  | rMain (k : Nat)

/-- Apply a runtime value to positional arguments, as `func(*args)` and the
other call sites inside handle_command do: user functions are entered, the
bridge's own handle_command re-enters the handler (through `recur`), the
bridge's `main` hands control to the nested loop, and anything else raises
`TypeError`. -/
def callValue (recur : Ctx → PyVal → HRes) (g : Ctx) (v : PyVal)
    (args : List PyVal) : CallRes :=
  match v with
  | PyVal.func f ps b =>
      (match callUserFunc g f ps b args with
       | Except.ok rv => CallRes.rOk g rv
       | Except.error e => CallRes.rErr e)
  | PyVal.builtin bn =>
      if bn = "handle_command" then
        match args with
        | [a] =>
            (match recur g a with
             | HRes.ok g2 rv => CallRes.rOk g2 rv
             | HRes.raised e => CallRes.rErr e
             | HRes.mainCall k => CallRes.rMain k)
        | _ => CallRes.rErr ⟨("TypeError"), "handle_command() takes 1 positional argument"⟩
      else if bn = "main" then
        match args with
        | [] => CallRes.rMain 0
        | _ => CallRes.rErr ⟨("TypeError"), "main() takes 0 positional arguments"⟩
      else CallRes.rErr (notCallable (PyVal.builtin bn))
  | other => CallRes.rErr (notCallable other)

/-- Build the `except` clause's response dict once `str(e)` has produced the
`error` value: resolve the module-global name `traceback` and format the
trace.  A rebound `traceback` makes the clause itself raise. -/
def catchFinish (g : Ctx) (e : PyErr) (errv : PyVal) : Except PyErr PyVal :=
  match lookupEntries g ("traceback") with
  | some (PyVal.module ("traceback")) =>
      Except.ok
        (PyVal.dict
          [("status", PyVal.str ("error")), ("error", errv),
            ("traceback", PyVal.str (formatExc e))])
  | some other =>
      Except.error
        ⟨("AttributeError"),
          "\x27" ++ typeName other ++ "\x27 object has no attribute \x27format_exc\x27"⟩
  | Option.none => Except.error ⟨("NameError"), "name \x27traceback\x27 is not defined"⟩

/-- The `except Exception` clause of handle_command (bridge.py lines 21-22)
applied to a raised exception.  Every name it uses is resolved at that
moment against the module globals with fallback to the builtins: a shadowed
`Exception` is not an exception class, so evaluating the clause itself
raises; a shadowed `str` is applied to the exception object (a user
function runs; rebinding to the bridge's own handle_command recurses inside
the clause until the interpreter's depth limit, modelled as the resulting
`RecursionError`; any non-callable raises); an intact `str` yields the
exception's message.  The clause raising means the exception escapes
handle_command. -/
def catchClause (g : Ctx) (e : PyErr) : Except PyErr PyVal :=
  match lookupEntries g ("Exception") with
  | some _ =>
      Except.error
        ⟨("TypeError"),
          "catching classes that do not inherit from BaseException is not allowed"⟩
  | Option.none =>
      match lookupEntries g ("str") with
      | Option.none => catchFinish g e (PyVal.str e.msg)
      | some (PyVal.func f ps b) =>
          (match callUserFunc g f ps b [PyVal.exc e] with
           | Except.error e2 => Except.error e2
           | Except.ok v => catchFinish g e v)
      | some (PyVal.builtin bn) =>
          if bn = "handle_command" then
            Except.error ⟨("RecursionError"), "maximum recursion depth exceeded"⟩
          else Except.error ⟨("TypeError"), bn ++ "() takes 0 positional arguments"⟩
      | some other => Except.error (notCallable other)

/-- `globals()` followed by the `.get` attribute access (bridge.py line 14),
resolving the name `globals` against the module namespace with fallback to
the builtin: the builtin returns the live namespace itself; a shadowing
value is called with no arguments and its result must then be a dict for
`.get` to exist.  A re-entrant `main` reached through a rebound `globals`
is outside the modelled fragment and is mapped to the interpreter's
recursion failure. -/
def globalsEntries (recur : Ctx → PyVal → HRes) (g : Ctx) :
    Except PyErr (List (String × PyVal)) :=
  match lookupEntries g ("globals") with
  | Option.none => Except.ok g
  | some sv =>
      match callValue recur g sv [] with
      | CallRes.rErr e => Except.error e
      | CallRes.rMain _ =>
          Except.error ⟨("RecursionError"), "maximum recursion depth exceeded"⟩
      | CallRes.rOk _ w =>
          match w with
          | PyVal.dict es => Except.ok es
          | other =>
              Except.error
                ⟨("AttributeError"),
                  "\x27" ++ typeName other ++ "\x27 object has no attribute \x27get\x27"⟩

/-- The `raise ValueError(f"Function ... not found")` of bridge.py line 16:
the name `ValueError` is resolved at raise time.  Intact, the familiar
exception is raised; shadowed, the shadow is called on the message and
raising its (non-exception) result fails with the interpreter's own
`TypeError`; a re-entrant `main` reached through the shadow is outside the
modelled fragment and is mapped to the recursion failure. -/
def notFoundRaise (recur : Ctx → PyVal → HRes) (g : Ctx) (fnv : PyVal) : PyErr :=
  match lookupEntries g ("ValueError") with
  | Option.none => ⟨("ValueError"), "Function " ++ pyStr fnv ++ " not found"⟩
  | some vv =>
      match callValue recur g vv [PyVal.str ("Function " ++ pyStr fnv ++ " not found")] with
      | CallRes.rErr e => e
      | CallRes.rMain _ => ⟨("RecursionError"), "maximum recursion depth exceeded"⟩
      | CallRes.rOk _ v =>
          match v with
          | PyVal.exc e2 => e2
          | _ => ⟨("TypeError"), "exceptions must derive from BaseException"⟩

/-- Unpack the `args` value positionally, as `func(*args)` iterates it:
lists yield their elements, strings their characters, dicts their keys;
anything else raises `TypeError`. -/
def iterableOf : PyVal → Except PyErr (List PyVal)
  | PyVal.list xs => Except.ok xs
  | PyVal.str s => Except.ok (s.toList.map (fun c => PyVal.str (String.mk [c])))
  | PyVal.dict es => Except.ok (es.map (fun kv => PyVal.str kv.1))
  | other =>
      Except.error
        ⟨("TypeError"), "argument after * must be an iterable, not " ++ typeName other⟩

/-- The `try` body of handle_command (bridge.py lines 6-20): dispatch on
`cmd[\x27type\x27]`.  The `recur` argument is the handler itself, applied
when a call resolves to the bridge's own handle_command.  The `exec` and
`eval` branches resolve the `exec`/`eval`/`globals` builtins statically;
shadowing those names in the exec/eval branches is outside the modelled
fragment, and every general theorem below confines itself to states where
they are unshadowed (see `cleanGlobals`). -/
def handleBody (recur : Ctx → PyVal → HRes) (g : Ctx) (cmd : PyVal) : BodyRes :=
  match getItem cmd ("type") with
  | Except.error e => BodyRes.bErr e
  | Except.ok t =>
    if isStrVal t ("exec") then
      match getItem cmd ("code") with
      | Except.error e => BodyRes.bErr e
      | Except.ok (PyVal.str code) =>
          (match pyExecStr code g with
           | Except.error e => BodyRes.bErr e
           | Except.ok g2 => BodyRes.bOk g2 okResp)
      | Except.ok other =>
          BodyRes.bErr
            ⟨("TypeError"), "exec() arg 1 must be a string, not " ++ typeName other⟩
    else if isStrVal t ("eval") then
      match getItem cmd ("code") with
      | Except.error e => BodyRes.bErr e
      | Except.ok (PyVal.str code) =>
          (match pyEvalStr code g with
           | Except.error e => BodyRes.bErr e
           | Except.ok v => BodyRes.bOk g (okRespWith v))
      | Except.ok other =>
          BodyRes.bErr
            ⟨("TypeError"), "eval() arg 1 must be a string, not " ++ typeName other⟩
    else if isStrVal t ("call") then
      match globalsEntries recur g with
      | Except.error e => BodyRes.bErr e
      | Except.ok ns =>
        match getItem cmd ("fn") with
        | Except.error e => BodyRes.bErr e
        | Except.ok fnv =>
          match globalsGet ns fnv with
          | Except.error e => BodyRes.bErr e
          | Except.ok funcOpt =>
            match funcOpt with
            | Option.none => BodyRes.bErr (notFoundRaise recur g fnv)
            | some funcv =>
              if truthy funcv = false then BodyRes.bErr (notFoundRaise recur g fnv)
              else
                match getItem cmd ("args") with
                | Except.error e => BodyRes.bErr e
                | Except.ok av =>
                  match iterableOf av with
                  | Except.error e => BodyRes.bErr e
                  | Except.ok argvs =>
                    match callValue recur g funcv argvs with
                    | CallRes.rOk g2 rv => BodyRes.bOk g2 (okRespWith rv)
                    | CallRes.rErr e => BodyRes.bErr e
                    | CallRes.rMain k => BodyRes.bMain (k + 1)
    else BodyRes.bOk g unknownResp

/-- Wrap the `try` body's outcome in the `except` clause: a response or a
main-entry passes through; a raised exception goes to the except clause,
which either builds the error response or itself raises. -/
def handleCatch (g : Ctx) (b : BodyRes) : HRes :=
  match b with
  | BodyRes.bOk g2 resp => HRes.ok g2 resp
  | BodyRes.bMain d => HRes.mainCall d
  | BodyRes.bErr e =>
      match catchClause g e with
      | Except.ok respd => HRes.ok g respd
      | Except.error e2 => HRes.raised e2

/-- handle_command with explicit fuel bounding the depth of re-entrant calls
of the handler through the `call` command.  Each re-entry consumes one unit
of fuel and operates on a strict sub-value of the command, so a fuel of
`pySize cmd + 1` is never exhausted; the fuel-exhausted branch mirrors
Python's own `RecursionError`. -/
def handleFuel : Nat → Ctx → PyVal → HRes
  | 0, _, _ => HRes.raised ⟨("RecursionError"), "maximum recursion depth exceeded"⟩
  | n + 1, g, cmd => handleCatch g (handleBody (handleFuel n) g cmd)

/-- handle_command (bridge.py lines 5-22): dispatch one decoded command
against the shared globals; yields the updated globals and the response
dict, the exception that escaped the handler's own `except` clause, or a
pending re-entrant invocation of the loop through the shared input. -/
def handle_command (g : Ctx) (cmd : PyVal) : HRes :=
  handleFuel (pySize cmd + 1) g cmd

/-- One-step unfolding of the handler: `try` body under the `except` clause. -/
theorem handle_command_eq (g : Ctx) (cmd : PyVal) :
    handle_command g cmd = handleCatch g (handleBody (handleFuel (pySize cmd)) g cmd) := rfl

/-- The exception `json.loads` raises on undecodable text. -/
def jsonDecodeErr : PyErr :=
  ⟨("JSONDecodeError"), "Expecting value: line 1 column 1 (char 0)"⟩

/-- The exception `json.dumps` raises on an unserializable response. -/
def dumpsErr : PyErr := ⟨("TypeError"), "Object is not JSON serializable"⟩

/-- The fixed response for an undecodable input line (bridge.py line 33):
no `id`, no `traceback`. -/
def invalidJsonResp : PyVal :=
  PyVal.dict [("status", PyVal.str ("error")), ("error", PyVal.str ("Invalid JSON"))]

/-- A pending re-entrant invocation of `main` (bridge.py line 25 reached
again through a `call` of `fn: main`): the line whose handler entered the
nested loop, and the number of handler layers wrapping that entry — the
line is answered only after the nested loop finishes, its response wrapped
in one `result` per layer. -/
structure Frame where
  cmd : PyVal
  d : Nat

/-- Outcome of one iteration of the loop: a response line was written and
the loop continues with the new globals; control entered a nested `main`;
or an exception escaped the iteration (with the globals as the iteration
left them, against which any enclosing handler's `except` clause runs). -/
inductive StepResult where
  | emit (out : PyVal) (g2 : Ctx)
  | enterMain (g2 : Ctx) (f : Frame)
  | crash (g2 : Ctx) (e : PyErr)

/-- How a run of main's loop ended: the input stream was exhausted, or an
uncaught exception terminated the process early. -/
inductive Term where
  | eof
  | crashed (e : PyErr)

/-- Outcome of the id-attach and serialization steps of a loop iteration:
the line to print, or a raised exception. -/
inductive FinishRes where
  | fEmit (out : PyVal)
  | fErr (e : PyErr)

/-- Outcome of a loop iteration's `except` clause: the fixed invalid-input
response is printed and the loop continues, or the exception propagates out
of the iteration. -/
inductive ExceptRes where
  | xEmit
  | xProp (e : PyErr)

/-- The id-attach and serialization steps of one loop iteration (bridge.py
lines 30-31): `response[\x27id\x27] = cmd.get(\x27id\x27)`, then
`json.dumps` with the name `json` resolved in the current globals.  The
builtin `print` itself is resolved statically: a module-global shadow of
`print` is never live — the very line that creates one crashes while
emitting its own response — so no reachable live state exercises a shadow,
and the session predicates below exclude such states explicitly. -/
def finishResp (g : Ctx) (cmd resp : PyVal) : FinishRes :=
  match pyDictGet cmd ("id") with
  | Except.error e => FinishRes.fErr e
  | Except.ok idv =>
      match setItem resp ("id") idv with
      | Except.error e => FinishRes.fErr e
      | Except.ok resp2 =>
          match lookupEntries g ("json") with
          | some (PyVal.module ("json")) =>
              if serializable resp2 then FinishRes.fEmit resp2 else FinishRes.fErr dumpsErr
          | some other =>
              FinishRes.fErr
                ⟨("AttributeError"),
                  "\x27" ++ typeName other ++ "\x27 object has no attribute \x27dumps\x27"⟩
          | Option.none => FinishRes.fErr ⟨("NameError"), "name \x27json\x27 is not defined"⟩

/-- The `except json.JSONDecodeError` clause of a loop iteration (bridge.py
lines 32-33), evaluated against the globals the iteration's body left: it
handles exactly a decode error, and only while the name `json` still
denotes the json module; anything else propagates out of the iteration. -/
def loopExcept (g : Ctx) (e : PyErr) : ExceptRes :=
  match lookupEntries g ("json") with
  | some (PyVal.module ("json")) =>
      if e.name = "JSONDecodeError" then ExceptRes.xEmit else ExceptRes.xProp e
  | _ => ExceptRes.xProp e

/-- Route an exception raised inside a loop iteration through that
iteration's `except` clause. -/
def lineExceptStep (g : Ctx) (e : PyErr) : StepResult :=
  match loopExcept g e with
  | ExceptRes.xEmit => StepResult.emit invalidJsonResp g
  | ExceptRes.xProp e2 => StepResult.crash g e2

/-- The calling convention of `handle_command(cmd)` inside main: the name is
resolved in the module globals at call time, so the value found there may be
the bridge's own function, a user function `exec` has rebound it to, or a
non-callable value (which raises `TypeError`). -/
def handlerInvoke (g : Ctx) (hv : PyVal) (cmd : PyVal) : HRes :=
  match hv with
  | PyVal.builtin bn =>
      if bn = "handle_command" then handle_command g cmd
      else HRes.raised ⟨("TypeError"), bn ++ "() takes 0 positional arguments"⟩
  | PyVal.func f ps body =>
      (match callUserFunc g f ps body [cmd] with
       | Except.ok v => HRes.ok g v
       | Except.error e => HRes.raised e)
  | v => HRes.raised (notCallable v)

/-- One iteration of main's loop (bridge.py lines 27-33): decode the line,
run the handler found under the module-global name `handle_command`, attach
the id and serialize.  Input lines are carried as their decoded JSON values
(`some v`) or as a marker of undecodable text (`Option.none`); an emitted
line is carried as the response value `json.dumps` accepted. -/
def lineStep (g : Ctx) (l : Option PyVal) : StepResult :=
  match lookupEntries g ("json") with
  | some (PyVal.module ("json")) =>
      (match l with
       | Option.none => lineExceptStep g jsonDecodeErr
       | some cmd =>
           match lookupEntries g ("handle_command") with
           | Option.none =>
               lineExceptStep g ⟨("NameError"), "name \x27handle_command\x27 is not defined"⟩
           | some hv =>
               match handlerInvoke g hv cmd with
               | HRes.ok g2 resp =>
                   (match finishResp g2 cmd resp with
                    | FinishRes.fEmit o => StepResult.emit o g2
                    | FinishRes.fErr e => lineExceptStep g2 e)
               | HRes.raised e => lineExceptStep g e
               | HRes.mainCall d => StepResult.enterMain g ⟨cmd, d⟩)
  | some other =>
      lineExceptStep g
        ⟨("AttributeError"),
          "\x27" ++ typeName other ++ "\x27 object has no attribute \x27loads\x27"⟩
  | Option.none => lineExceptStep g ⟨("NameError"), "name \x27json\x27 is not defined"⟩

/-- Wrap a response value in `k` layers of `result`, as `k` nested
handle_command layers report a nested return value. -/
def wrapOk : Nat → PyVal → PyVal
  | 0, r => r
  | k + 1, r => okRespWith (wrapOk k r)

/-- State of the unwinding of pending `main` frames: the innermost level
reached end-of-input, or an exception is propagating outward. -/
inductive PopSt where
  | eofSt
  | excSt (e : PyErr)

/-- Result of popping one pending frame: its line's response (or the fixed
invalid-input response) was emitted and the enclosing level resumes reading,
or the exception continues into the next enclosing level. -/
inductive FramePop where
  | emitResume (out : PyVal)
  | cascade (e : PyErr)

/-- Finish a popped frame's line: attach the id and serialize its response;
a failure is routed through that level's own `except` clause. -/
def framePopFinish (g : Ctx) (f : Frame) (resp : PyVal) : FramePop :=
  match finishResp g f.cmd resp with
  | FinishRes.fEmit o => FramePop.emitResume o
  | FinishRes.fErr e2 =>
      match loopExcept g e2 with
      | ExceptRes.xEmit => FramePop.emitResume invalidJsonResp
      | ExceptRes.xProp e3 => FramePop.cascade e3

/-- Pop one pending `main` frame.  At end-of-input the nested `main` returns
`None`, wrapped by the frame's handler layers.  An exception propagating out
of the nested loop is caught by the handler layer that invoked `main` — its
`except` clause runs against the current globals — and the resulting error
response is wrapped by the remaining layers; if the clause itself raises,
the exception reaches the frame's own loop iteration and then continues
outward. -/
def popFrame (g : Ctx) (f : Frame) (st : PopSt) : FramePop :=
  match st with
  | PopSt.eofSt => framePopFinish g f (wrapOk f.d PyVal.none)
  | PopSt.excSt e =>
      match catchClause g e with
      | Except.ok respd => framePopFinish g f (wrapOk (f.d - 1) respd)
      | Except.error e2 =>
          match loopExcept g e2 with
          | ExceptRes.xEmit => FramePop.emitResume invalidJsonResp
          | ExceptRes.xProp e3 => FramePop.cascade e3

/-- Result of unwinding an exception through the pending frames mid-stream:
every frame cascaded and the process dies, or some frame's level caught it,
emitted its line's response and resumes reading the shared stream. -/
inductive Unwound where
  | dead (e : PyErr)
  | resume (g : Ctx) (stack : List Frame) (out : PyVal)

/-- Unwind an exception through the pending frames (popping does not touch
the globals: the `except` clauses and serialization only read them). -/
def unwindCrash (g : Ctx) (e : PyErr) : List Frame → Unwound
  | [] => Unwound.dead e
  | f :: rest =>
      match popFrame g f (PopSt.excSt e) with
      | FramePop.emitResume o => Unwound.resume g rest o
      | FramePop.cascade e2 => unwindCrash g e2 rest

/-- Unwind the pending frames once the shared input stream is exhausted:
each frame's nested `main` returns (or an exception cascades), its line is
answered, and the enclosing level immediately reaches end-of-input as
well. -/
def unwindEofAux (g : Ctx) (st : PopSt) : List Frame → List PyVal × Term
  | [] =>
      (match st with
       | PopSt.eofSt => ([], Term.eof)
       | PopSt.excSt e => ([], Term.crashed e))
  | f :: rest =>
      match popFrame g f st with
      | FramePop.emitResume o =>
          (o :: (unwindEofAux g PopSt.eofSt rest).1, (unwindEofAux g PopSt.eofSt rest).2)
      | FramePop.cascade e2 => unwindEofAux g (PopSt.excSt e2) rest

/-- The read-dispatch-write loop (bridge.py lines 25-33) over the shared
finite input stream, with the stack of pending re-entrant `main` frames:
each iteration emits its response line before the next line is read; a
nested `main` answers the remaining lines before its own line is answered;
the run ends at end-of-input or with an uncaught exception.  The guard
`if not line: break` (line 26) never fires, since iterating a text stream
yields each line with its terminator and stops at end-of-file rather than
yielding an empty string; the stream is therefore modelled as the finite
list of its lines. -/
def driver (g : Ctx) (stack : List Frame) : List (Option PyVal) → List PyVal × Term
  | [] => unwindEofAux g PopSt.eofSt stack
  | l :: ls =>
      match lineStep g l with
      | StepResult.emit o g2 => (o :: (driver g2 stack ls).1, (driver g2 stack ls).2)
      | StepResult.enterMain g2 f => driver g2 (f :: stack) ls
      | StepResult.crash g2 e =>
          (match unwindCrash g2 e stack with
           | Unwound.dead e2 => ([], Term.crashed e2)
           | Unwound.resume g3 stack2 o =>
               (o :: (driver g3 stack2 ls).1, (driver g3 stack2 ls).2))

/-- The loop as started by main: no pending frames. -/
def mainLoop (g : Ctx) (input : List (Option PyVal)) : List PyVal × Term :=
  driver g [] input

/-- The module namespace of bridge.py when main starts: the three imported
modules and the two module-level functions (dunder entries elided). -/
def initialGlobals : Ctx :=
  [("sys", PyVal.module ("sys")), ("json", PyVal.module ("json")),
    ("traceback", PyVal.module ("traceback")),
    ("handle_command", PyVal.builtin ("handle_command")),
    ("main", PyVal.builtin ("main"))]

/-- main (bridge.py lines 24-33): run the loop from the freshly imported
module namespace. -/
def main (input : List (Option PyVal)) : List PyVal × Term :=
  mainLoop initialGlobals input

/- ## Session safety and supporting lemmas -/

/-- Field lookup on a response value (none on a non-dict). -/
def respField (v : PyVal) (key : String) : Option PyVal :=
  match v with
  | PyVal.dict es => lookupEntries es key
  | _ => Option.none

/-- Truthiness of an optional lookup result, as `if not func:` sees it after
`globals().get(...)`: an absent name and a falsy value test alike. -/
def truthyOpt : Option PyVal → Bool
  | Option.none => false
  | some v => truthy v

/-- The module globals are clean when every name the loop body resolves
dynamically still denotes what the fresh module provides: `json`,
`traceback` and `handle_command` are the module's own bindings, and none of
the builtin names the code resolves at run time (`str`, `Exception`,
`ValueError`, `globals`, `exec`, `eval`, `print`) is shadowed by a module
global. -/
def cleanGlobals (g : Ctx) : Bool :=
  (match lookupEntries g ("json"), lookupEntries g ("traceback"),
      lookupEntries g ("handle_command") with
   | some (PyVal.module ("json")), some (PyVal.module ("traceback")),
       some (PyVal.builtin ("handle_command")) => true
   | _, _, _ => false) &&
    (lookupEntries g ("str")).isNone && (lookupEntries g ("Exception")).isNone &&
    (lookupEntries g ("ValueError")).isNone && (lookupEntries g ("globals")).isNone &&
    (lookupEntries g ("exec")).isNone && (lookupEntries g ("eval")).isNone &&
    (lookupEntries g ("print")).isNone

/-- Unpack the individual facts of a clean-globals state. -/
theorem cleanGlobals_spec (g : Ctx) (h : cleanGlobals g = true) :
    lookupEntries g ("json") = some (PyVal.module ("json")) ∧
      lookupEntries g ("traceback") = some (PyVal.module ("traceback")) ∧
      lookupEntries g ("handle_command") = some (PyVal.builtin ("handle_command")) ∧
      lookupEntries g ("str") = Option.none ∧
      lookupEntries g ("Exception") = Option.none ∧
      lookupEntries g ("ValueError") = Option.none ∧
      lookupEntries g ("globals") = Option.none ∧
      lookupEntries g ("print") = Option.none := by
  unfold cleanGlobals at h
  simp only [Bool.and_eq_true, Option.isNone_iff_eq_none] at h
  obtain ⟨⟨⟨⟨⟨⟨⟨hm, hstr⟩, hexc⟩, hve⟩, hgl⟩, hex⟩, hev⟩, hpr⟩ := h
  split at hm
  · rename_i hj htb hhc
    exact ⟨hj, htb, hhc, hstr, hexc, hve, hgl, hpr⟩
  · simp at hm

/-- A session is safe when, along its run, every line is either undecodable
text or decodes to a JSON object, the handler answers it with a response
(rather than raising or entering a nested `main`), the response with the
`id` attached is JSON-serializable, and the globals are clean at every
step.  These conditions confine the run to states where no step of the loop
raises outside a handler and the nested-`main` machinery is never
entered. -/
def SessionSafe (g : Ctx) : List (Option PyVal) → Bool
  | [] => true
  | Option.none :: ls => cleanGlobals g && SessionSafe g ls
  | some (PyVal.dict m) :: ls =>
      cleanGlobals g &&
        (match handle_command g (PyVal.dict m) with
         | HRes.ok g2 resp =>
             (match setItem resp ("id") ((lookupEntries m ("id")).getD PyVal.none) with
              | Except.ok resp2 =>
                  serializable resp2 && cleanGlobals g2 && SessionSafe g2 ls
              | Except.error _ => false)
         | HRes.raised _ => false
         | HRes.mainCall _ => false)
  | some _ :: _ => false

/-- The response line of each input line along a run, one after the other,
stopping where a step does not simply emit. -/
def sessionOuts (g : Ctx) : List (Option PyVal) → List PyVal
  | [] => []
  | l :: ls =>
      match lineStep g l with
      | StepResult.emit o g2 => o :: sessionOuts g2 ls
      | StepResult.enterMain _ _ => []
      | StepResult.crash _ _ => []

/-- Writing a key and reading it back yields the written value. -/
theorem lookupEntries_setEntries_self (es : List (String × PyVal)) (k : String) (v : PyVal) :
    lookupEntries (setEntries es k v) k = some v := by
  induction es with
  | nil => simp [setEntries, lookupEntries]
  | cons p rest ih =>
      obtain ⟨k0, v0⟩ := p
      by_cases hk : k0 = k
      · simp [setEntries, lookupEntries, hk]
      · simp [setEntries, lookupEntries, hk, ih]

/-- Item assignment followed by subscripting yields the assigned value. -/
theorem getItem_setItem (d d2 : PyVal) (k : String) (v : PyVal)
    (h : setItem d k v = Except.ok d2) : getItem d2 k = Except.ok v := by
  cases d with
  | dict es =>
      simp only [setItem, Except.ok.injEq] at h
      subst h
      simp [getItem, lookupEntries_setEntries_self]
  | none => simp [setItem] at h
  | bool b => simp [setItem] at h
  | int n => simp [setItem] at h
  | str s => simp [setItem] at h
  | list xs => simp [setItem] at h
  | func f ps body => simp [setItem] at h
  | builtin f => simp [setItem] at h
  | module m => simp [setItem] at h
  | exc e => simp [setItem] at h

/-- With `Exception`, `str` and `traceback` unshadowed, the `except` clause
turns any exception into the familiar error response. -/
theorem catchClause_intact (g : Ctx) (e : PyErr)
    (hstr : lookupEntries g ("str") = Option.none)
    (hexc : lookupEntries g ("Exception") = Option.none)
    (htb : lookupEntries g ("traceback") = some (PyVal.module ("traceback"))) :
    catchClause g e = Except.ok (errResp e) := by
  unfold catchClause catchFinish
  rw [hexc, hstr, htb]
  rfl

/-- While the except machinery is unshadowed, no exception escapes
handle_command: every failure raised by the dispatched command is converted
to an error response (or the handler hands control to a nested `main`). -/
theorem handle_command_no_raise (g : Ctx) (cmd : PyVal)
    (hstr : lookupEntries g ("str") = Option.none)
    (hexc : lookupEntries g ("Exception") = Option.none)
    (htb : lookupEntries g ("traceback") = some (PyVal.module ("traceback"))) :
    ∀ e, handle_command g cmd ≠ HRes.raised e := by
  intro e hcon
  rw [handle_command_eq] at hcon
  cases hb : handleBody (handleFuel (pySize cmd)) g cmd with
  | bOk g2 resp => rw [hb] at hcon; simp [handleCatch] at hcon
  | bMain d => rw [hb] at hcon; simp [handleCatch] at hcon
  | bErr e0 =>
      rw [hb] at hcon
      simp [handleCatch, catchClause_intact g e0 hstr hexc htb] at hcon

/-- An undecodable line is answered by the fixed invalid-JSON response and
leaves the globals untouched, provided `json` still denotes its module. -/
theorem lineStep_invalid (g : Ctx)
    (hj : lookupEntries g ("json") = some (PyVal.module ("json"))) :
    lineStep g Option.none = StepResult.emit invalidJsonResp g := by
  simp [lineStep, lineExceptStep, loopExcept, hj, jsonDecodeErr]

/-- A line decoding to a JSON object for which the handler produced a
response, the `id` attach succeeded, and the result serializes, is emitted
as exactly that response. -/
theorem lineStep_emit (g g2 : Ctx) (m : List (String × PyVal)) (resp resp2 : PyVal)
    (hj : lookupEntries g ("json") = some (PyVal.module ("json")))
    (hh : lookupEntries g ("handle_command") = some (PyVal.builtin ("handle_command")))
    (hc : handle_command g (PyVal.dict m) = HRes.ok g2 resp)
    (hset : setItem resp ("id") ((lookupEntries m ("id")).getD PyVal.none) = Except.ok resp2)
    (hj2 : lookupEntries g2 ("json") = some (PyVal.module ("json")))
    (hser : serializable resp2 = true) :
    lineStep g (some (PyVal.dict m)) = StepResult.emit resp2 g2 := by
  simp [lineStep, handlerInvoke, hj, hh, hc, finishResp, pyDictGet, hset, hj2, hser]

/-- Along a safe session the loop runs to end-of-input and the emitted lines
are exactly the per-line responses, one per input line. -/
theorem sessionRun (ls : List (Option PyVal)) : ∀ g : Ctx, SessionSafe g ls = true →
    mainLoop g ls = (sessionOuts g ls, Term.eof) ∧
      (sessionOuts g ls).length = ls.length := by
  induction ls with
  | nil => intro g _; exact ⟨rfl, rfl⟩
  | cons l ls ih =>
      intro g h
      rcases l with _ | v
      · simp only [SessionSafe, Bool.and_eq_true] at h
        obtain ⟨hcg, h⟩ := h
        obtain ⟨hj, _⟩ := cleanGlobals_spec g hcg
        have hstep := lineStep_invalid g hj
        obtain ⟨h1, h2⟩ := ih g h
        simp only [mainLoop] at h1
        constructor
        · simp [mainLoop, driver, sessionOuts, hstep, h1]
        · simp [sessionOuts, hstep, h2]
      · cases v with
        | dict m =>
            simp only [SessionSafe, Bool.and_eq_true] at h
            obtain ⟨hcg, h⟩ := h
            obtain ⟨hj, htb, hhc, _⟩ := cleanGlobals_spec g hcg
            cases hc : handle_command g (PyVal.dict m) with
            | raised e => rw [hc] at h; simp at h
            | mainCall d => rw [hc] at h; simp at h
            | ok g2 resp =>
                rw [hc] at h
                dsimp only at h
                cases hset : setItem resp ("id")
                    ((lookupEntries m ("id")).getD PyVal.none) with
                | error e => rw [hset] at h; simp at h
                | ok resp2 =>
                    rw [hset] at h
                    simp only [Bool.and_eq_true] at h
                    obtain ⟨⟨hser, hcg2⟩, h⟩ := h
                    obtain ⟨hj2, _⟩ := cleanGlobals_spec g2 hcg2
                    have hstep := lineStep_emit g g2 m resp resp2 hj hhc hc hset hj2 hser
                    obtain ⟨h1, h2⟩ := ih g2 h
                    simp only [mainLoop] at h1
                    constructor
                    · simp [mainLoop, driver, sessionOuts, hstep, h1]
                    · simp [sessionOuts, hstep, h2]
        | none => simp [SessionSafe] at h
        | bool b => simp [SessionSafe] at h
        | int n => simp [SessionSafe] at h
        | str s => simp [SessionSafe] at h
        | list xs => simp [SessionSafe] at h
        | func f ps body => simp [SessionSafe] at h
        | builtin f => simp [SessionSafe] at h
        | module mm => simp [SessionSafe] at h
        | exc e => simp [SessionSafe] at h

/- ## Concrete commands of the design document's scenarios -/

/-- The round-trip scenario's first command: define `f`. -/
def execDefF : PyVal :=
  PyVal.dict
    [("id", PyVal.int 1), ("type", PyVal.str ("exec")),
      ("code", PyVal.str ("def f(x): return x+1"))]

/-- The round-trip scenario's second command: call `f` on `[5]`. -/
def callF5 : PyVal :=
  PyVal.dict
    [("id", PyVal.int 2), ("type", PyVal.str ("call")), ("fn", PyVal.str ("f")),
      ("args", PyVal.list [PyVal.int 5])]

/-- The eval scenario's command: evaluate `1+1`. -/
def evalOnePlusOne : PyVal :=
  PyVal.dict
    [("id", PyVal.int 4), ("type", PyVal.str ("eval")), ("code", PyVal.str ("1+1"))]

/-- The error scenario's command: call an undefined `missing`. -/
def callMissingCmd : PyVal :=
  PyVal.dict
    [("id", PyVal.int 3), ("type", PyVal.str ("call")), ("fn", PyVal.str ("missing"))]

/-- The function value `def f(x): return x+1` creates. -/
def fVal : PyVal := PyVal.func ("f") ["x"] (PyExpr.add (PyExpr.name ("x")) (PyExpr.lit 1))

/-- The module namespace after the round-trip scenario's `exec`. -/
def globalsWithF : Ctx := initialGlobals ++ [("f", fVal)]

/- ## The claims -/

/-- C1, counterexample.  The claim says the bridge never crashes on
malformed input and that the loop terminates only at end-of-input.  But the
steps after the handler lie outside every handler: the input line `5` is
valid JSON, so the decode error clause does not fire, and attaching the
correlation id evaluates `cmd.get(\x27id\x27)` on an integer, raising an
uncaught `AttributeError` — the process dies with no response emitted and a
well-formed second line still unread. -/
theorem c1_counterexample :
    main [some (PyVal.int 5), some evalOnePlusOne] =
      ([],
        Term.crashed
          ⟨("AttributeError"), "\x27int\x27 object has no attribute \x27get\x27"⟩) := rfl

/-- C1, amended.  While the names the `except` clause resolves (`str`,
`Exception`, `traceback`) are unshadowed, every failure raised while
handling a command inside handle_command is caught at the handler boundary;
and the loop terminates only at end-of-input provided every line either
fails to decode or decodes to a JSON object the handler answers, each
response with its id attached is JSON-serializable, and the module globals
the loop resolves dynamically stay clean along the session (in particular
no command reaches the bridge's own `main`). -/
theorem c1_catch_at_boundary (g : Ctx) (cmd : PyVal) (ls : List (Option PyVal))
    (htb : lookupEntries g ("traceback") = some (PyVal.module ("traceback")))
    (hstr : lookupEntries g ("str") = Option.none)
    (hexc : lookupEntries g ("Exception") = Option.none)
    (hs : SessionSafe g ls = true) :
    (∀ e, handle_command g cmd ≠ HRes.raised e) ∧ (mainLoop g ls).2 = Term.eof := by
  refine ⟨handle_command_no_raise g cmd hstr hexc htb, ?_⟩
  rw [(sessionRun ls g hs).1]

/-- C1, witness: a concrete safe session reaches end-of-input and the
handler never raises on a concrete command. -/
theorem c1_catch_at_boundary_witness :
    (∀ e, handle_command initialGlobals evalOnePlusOne ≠ HRes.raised e) ∧
      (mainLoop initialGlobals [some evalOnePlusOne, Option.none]).2 = Term.eof :=
  c1_catch_at_boundary initialGlobals evalOnePlusOne [some evalOnePlusOne, Option.none]
    rfl rfl rfl rfl

/-- C2.  A name defined in the shared execution context by a successful
`exec` is returned by a subsequent `eval` of that name: generally, after
any statement execution, evaluating a name the resulting context binds
yields the bound value; at the protocol level, evaluating the code string
`f` after the round-trip `exec` returns the defined function value, and the
round-trip scenario itself produces `ok` then `result 6`. -/
theorem c2_exec_then_eval (s : PyStmt) (g g2 : Ctx) (N : String) (v : PyVal)
    (_hex : execStmt g s = Except.ok g2) (hN : lookupEntries g2 N = some v) :
    evalExpr [] g2 (PyExpr.name N) = Except.ok v ∧
      handle_command initialGlobals execDefF = HRes.ok globalsWithF okResp ∧
      handle_command globalsWithF
          (PyVal.dict [("type", PyVal.str ("eval")), ("code", PyVal.str ("f"))]) =
        HRes.ok globalsWithF (okRespWith fVal) ∧
      main [some execDefF, some callF5] =
        ([PyVal.dict [("status", PyVal.str ("ok")), ("id", PyVal.int 1)],
            PyVal.dict
              [("status", PyVal.str ("ok")), ("result", PyVal.int 6),
                ("id", PyVal.int 2)]],
          Term.eof) := by
  refine ⟨?_, rfl, rfl, rfl⟩
  simp [evalExpr, lookupEntries, hN]

/-- C2, witness: assigning `a = 7` in an empty context and evaluating the
name `a` afterwards returns `7`. -/
theorem c2_exec_then_eval_witness :
    execStmt [] (PyStmt.assign ("a") (PyExpr.lit 7)) = Except.ok [("a", PyVal.int 7)] ∧
      evalExpr [] [("a", PyVal.int 7)] (PyExpr.name ("a")) = Except.ok (PyVal.int 7) :=
  ⟨rfl,
    (c2_exec_then_eval (PyStmt.assign ("a") (PyExpr.lit 7)) [] [("a", PyVal.int 7)]
        ("a") (PyVal.int 7) rfl rfl).1⟩

/-- C3, counterexample.  Two well-formed input lines (both valid JSON
objects), but only one response line is emitted: the second command's
result is the function value `f`, `json.dumps` raises on it outside every
handler, and the loop dies without answering the second line. -/
theorem c3_counterexample :
    main
        [some execDefF,
          some
            (PyVal.dict
              [("id", PyVal.int 2), ("type", PyVal.str ("eval")),
                ("code", PyVal.str ("f"))])] =
      ([PyVal.dict [("status", PyVal.str ("ok")), ("id", PyVal.int 1)]],
        Term.crashed dumpsErr) := rfl

/-- C3, amended.  For sessions whose lines each either fail to decode or
decode to a JSON object the handler answers with a JSON-serializable
response, and which keep the dynamically resolved module globals clean (so
in particular no command reaches the bridge's own `main`, whose nested loop
would answer later lines first), exactly one response line is emitted per
input line, in input order; the loop is sequential, so each response is
emitted before the next line is processed. -/
theorem c3_fifo (g : Ctx) (ls : List (Option PyVal)) (hs : SessionSafe g ls = true) :
    mainLoop g ls = (sessionOuts g ls, Term.eof) ∧
      (sessionOuts g ls).length = ls.length ∧
      ∀ (l : Option PyVal) (ls2 : List (Option PyVal)) (o : PyVal) (g2 : Ctx),
        lineStep g l = StepResult.emit o g2 →
        mainLoop g (l :: ls2) = (o :: (mainLoop g2 ls2).1, (mainLoop g2 ls2).2) := by
  obtain ⟨h1, h2⟩ := sessionRun ls g hs
  refine ⟨h1, h2, ?_⟩
  intro l ls2 o g2 hstep
  simp [mainLoop, driver, hstep]

/-- C3, witness: a concrete safe two-line session emits its two responses
in order and ends at end-of-input. -/
theorem c3_fifo_witness :
    mainLoop initialGlobals [some evalOnePlusOne, Option.none] =
      (sessionOuts initialGlobals [some evalOnePlusOne, Option.none], Term.eof) ∧
      (sessionOuts initialGlobals [some evalOnePlusOne, Option.none]).length = 2 :=
  ⟨(c3_fifo initialGlobals [some evalOnePlusOne, Option.none] rfl).1,
    (c3_fifo initialGlobals [some evalOnePlusOne, Option.none] rfl).2.1⟩

/-- C4.  Whenever a decoded JSON-object command is answered, the response's
`id` field is exactly the command's `id` value; a command without `id`
yields the response id `None` (serialized as null). -/
theorem c4_id_echo (g g2 : Ctx) (m : List (String × PyVal)) (resp resp2 : PyVal)
    (hj : lookupEntries g ("json") = some (PyVal.module ("json")))
    (hh : lookupEntries g ("handle_command") = some (PyVal.builtin ("handle_command")))
    (hc : handle_command g (PyVal.dict m) = HRes.ok g2 resp)
    (hset : setItem resp ("id") ((lookupEntries m ("id")).getD PyVal.none) = Except.ok resp2)
    (hj2 : lookupEntries g2 ("json") = some (PyVal.module ("json")))
    (hser : serializable resp2 = true) :
    lineStep g (some (PyVal.dict m)) = StepResult.emit resp2 g2 ∧
      getItem resp2 ("id") = Except.ok ((lookupEntries m ("id")).getD PyVal.none) :=
  ⟨lineStep_emit g g2 m resp resp2 hj hh hc hset hj2 hser,
    getItem_setItem resp resp2 ("id") ((lookupEntries m ("id")).getD PyVal.none) hset⟩

/-- C4, witness: a command with `id` 7 is answered with `id` 7, and a
command without `id` is answered with id `None`. -/
theorem c4_id_echo_witness :
    (lineStep initialGlobals
        (some
          (PyVal.dict
            [("id", PyVal.int 7), ("type", PyVal.str ("eval")),
              ("code", PyVal.str ("1+1"))])) =
      StepResult.emit
        (PyVal.dict
          [("status", PyVal.str ("ok")), ("result", PyVal.int 2), ("id", PyVal.int 7)])
        initialGlobals) ∧
      (lineStep initialGlobals (some (PyVal.dict [("type", PyVal.str ("frobnicate"))])) =
        StepResult.emit
          (PyVal.dict
            [("status", PyVal.str ("error")), ("error", PyVal.str ("Unknown command")),
              ("id", PyVal.none)])
          initialGlobals) :=
  ⟨(c4_id_echo initialGlobals initialGlobals
      [("id", PyVal.int 7), ("type", PyVal.str ("eval")), ("code", PyVal.str ("1+1"))]
      (okRespWith (PyVal.int 2))
      (PyVal.dict
        [("status", PyVal.str ("ok")), ("result", PyVal.int 2), ("id", PyVal.int 7)])
      rfl rfl rfl rfl rfl rfl).1,
    (c4_id_echo initialGlobals initialGlobals [("type", PyVal.str ("frobnicate"))]
      unknownResp
      (PyVal.dict
        [("status", PyVal.str ("error")), ("error", PyVal.str ("Unknown command")),
          ("id", PyVal.none)])
      rfl rfl rfl rfl rfl rfl).1⟩

/-- C5.  An undecodable input line is answered by exactly one error
response with the fixed invalid-input message, carrying neither an `id`
field nor a `traceback` field, and the loop then continues with the
remaining lines — a framing error is never fatal (as long as the
module-global `json` still denotes its module). -/
theorem c5_framing_error (g : Ctx) (rest : List (Option PyVal))
    (hj : lookupEntries g ("json") = some (PyVal.module ("json"))) :
    mainLoop g (Option.none :: rest) =
      (invalidJsonResp :: (mainLoop g rest).1, (mainLoop g rest).2) ∧
      respField invalidJsonResp ("id") = Option.none ∧
      respField invalidJsonResp ("traceback") = Option.none ∧
      respField invalidJsonResp ("status") = some (PyVal.str ("error")) ∧
      respField invalidJsonResp ("error") = some (PyVal.str ("Invalid JSON")) := by
  refine ⟨?_, rfl, rfl, rfl, rfl⟩
  have hstep := lineStep_invalid g hj
  simp [mainLoop, driver, hstep]

/-- C5, witness: a malformed line followed by a well-formed one — the error
response is emitted and the next line is still processed. -/
theorem c5_framing_error_witness :
    mainLoop initialGlobals [Option.none, some evalOnePlusOne] =
      (invalidJsonResp :: (mainLoop initialGlobals [some evalOnePlusOne]).1,
        (mainLoop initialGlobals [some evalOnePlusOne]).2) :=
  (c5_framing_error initialGlobals [some evalOnePlusOne] rfl).1

/-- C6.  A parsed command whose `type` value is not `exec`, `eval` or
`call` (under Python `==`, so any non-string value also qualifies) is
answered by the fixed unknown-command error response: status `error`, fixed
message, no `traceback` field, globals untouched — and the result does not
depend on the command's `code`, `fn` or `args` fields, which the dispatch
never consults; at the line level the command's `id` is still attached. -/
theorem c6_unknown_command (g : Ctx) (m : List (String × PyVal)) (t : PyVal)
    (ht : lookupEntries m ("type") = some t)
    (hne : isStrVal t ("exec") = false)
    (hnv : isStrVal t ("eval") = false)
    (hnc : isStrVal t ("call") = false)
    (hj : lookupEntries g ("json") = some (PyVal.module ("json")))
    (hh : lookupEntries g ("handle_command") = some (PyVal.builtin ("handle_command")))
    (hser : serializable ((lookupEntries m ("id")).getD PyVal.none) = true) :
    handle_command g (PyVal.dict m) = HRes.ok g unknownResp ∧
      respField unknownResp ("error") = some (PyVal.str ("Unknown command")) ∧
      respField unknownResp ("traceback") = Option.none ∧
      lineStep g (some (PyVal.dict m)) =
        StepResult.emit
          (PyVal.dict
            [("status", PyVal.str ("error")), ("error", PyVal.str ("Unknown command")),
              ("id", (lookupEntries m ("id")).getD PyVal.none)])
          g := by
  have hcmd : handle_command g (PyVal.dict m) = HRes.ok g unknownResp := by
    rw [handle_command_eq]
    unfold handleBody
    simp [getItem, ht, hne, hnv, hnc, handleCatch]
  have hset :
      setItem unknownResp ("id") ((lookupEntries m ("id")).getD PyVal.none) =
        Except.ok
          (PyVal.dict
            [("status", PyVal.str ("error")), ("error", PyVal.str ("Unknown command")),
              ("id", (lookupEntries m ("id")).getD PyVal.none)]) := rfl
  have hser2 :
      serializable
          (PyVal.dict
            [("status", PyVal.str ("error")), ("error", PyVal.str ("Unknown command")),
              ("id", (lookupEntries m ("id")).getD PyVal.none)]) = true := by
    simp [serializable, serializableD, hser]
  exact ⟨hcmd, rfl, rfl, lineStep_emit g g m unknownResp _ hj hh hcmd hset hj hser2⟩

/-- C6, witness: a concrete command of unknown type, carrying `code`, `fn`
and `args` fields, gets the fixed unknown-command answer with its id. -/
theorem c6_unknown_command_witness :
    handle_command initialGlobals
        (PyVal.dict
          [("id", PyVal.int 9), ("type", PyVal.str ("frobnicate")),
            ("code", PyVal.str ("1+1")), ("fn", PyVal.str ("f")),
            ("args", PyVal.list [])]) =
      HRes.ok initialGlobals unknownResp :=
  (c6_unknown_command initialGlobals
      [("id", PyVal.int 9), ("type", PyVal.str ("frobnicate")),
        ("code", PyVal.str ("1+1")), ("fn", PyVal.str ("f")), ("args", PyVal.list [])]
      (PyVal.str ("frobnicate")) rfl rfl rfl rfl rfl rfl rfl).1

/-- The module namespace after `exec` of the code `f = 0`. -/
def globalsWithF0 : Ctx := initialGlobals ++ [("f", PyVal.int 0)]

/-- C7, counterexample.  The claim says a `fn` present in the execution
context is invoked.  But the source tests the looked-up value with
`if not func:`, i.e. by truthiness: after `exec` of `f = 0` the name `f`
is present in the context, yet calling it is answered with the not-found
error rather than an invocation. -/
theorem c7_counterexample :
    handle_command initialGlobals
        (PyVal.dict
          [("id", PyVal.int 1), ("type", PyVal.str ("exec")),
            ("code", PyVal.str ("f = 0"))]) =
      HRes.ok globalsWithF0 okResp ∧
      lookupEntries globalsWithF0 ("f") = some (PyVal.int 0) ∧
      handle_command globalsWithF0
          (PyVal.dict
            [("id", PyVal.int 2), ("type", PyVal.str ("call")), ("fn", PyVal.str ("f")),
              ("args", PyVal.list [])]) =
        HRes.ok globalsWithF0 (errResp ⟨("ValueError"), "Function f not found"⟩) :=
  ⟨rfl, rfl, rfl⟩

/-- C7, amended.  For a `call` command naming `fn`, in a state where the
builtin names the call branch resolves (`globals`, and on the failure path
`ValueError`, `str`, `Exception`, `traceback`) are unshadowed: if the name
is absent from the shared execution context or bound to a falsy value, the
command fails with a not-found condition naming the symbol (converted to a
status-error response by the handler); if the name is bound to a truthy
value, the value is invoked with `args` unpacked positionally — for a
function value whose invocation returns normally, the return value is the
`result` of a status-ok response. -/
theorem c7_call_resolution (g : Ctx) (m : List (String × PyVal)) (fname : String)
    (ht : lookupEntries m ("type") = some (PyVal.str ("call")))
    (hfn : lookupEntries m ("fn") = some (PyVal.str fname))
    (hgl : lookupEntries g ("globals") = Option.none) :
    (truthyOpt (lookupEntries g fname) = false →
      lookupEntries g ("ValueError") = Option.none →
      lookupEntries g ("traceback") = some (PyVal.module ("traceback")) →
      lookupEntries g ("str") = Option.none →
      lookupEntries g ("Exception") = Option.none →
      handle_command g (PyVal.dict m) =
        HRes.ok g (errResp ⟨("ValueError"), "Function " ++ fname ++ " not found"⟩)) ∧
      (∀ (f : String) (ps : List String) (body : PyExpr) (argvs : List PyVal) (rv : PyVal),
        lookupEntries g fname = some (PyVal.func f ps body) →
        lookupEntries m ("args") = some (PyVal.list argvs) →
        callUserFunc g f ps body argvs = Except.ok rv →
        handle_command g (PyVal.dict m) = HRes.ok g (okRespWith rv)) := by
  constructor
  · intro htr hve htb hstr hexc
    rw [handle_command_eq]
    have hbody :
        handleBody (handleFuel (pySize (PyVal.dict m))) g (PyVal.dict m) =
          BodyRes.bErr ⟨("ValueError"), "Function " ++ fname ++ " not found"⟩ := by
      unfold handleBody
      cases o : lookupEntries g fname with
      | none =>
          simp [getItem, ht, hfn, isStrVal, globalsEntries, hgl, globalsGet, o,
            notFoundRaise, hve, pyStr]
      | some v =>
          have hv : truthy v = false := by simpa [truthyOpt, o] using htr
          simp [getItem, ht, hfn, isStrVal, globalsEntries, hgl, globalsGet, o, hv,
            notFoundRaise, hve, pyStr]
    rw [hbody]
    simp [handleCatch, catchClause_intact g _ hstr hexc htb]
  · intro f ps body argvs rv hg hargs hcall
    rw [handle_command_eq]
    have hbody :
        handleBody (handleFuel (pySize (PyVal.dict m))) g (PyVal.dict m) =
          BodyRes.bOk g (okRespWith rv) := by
      unfold handleBody
      simp [getItem, ht, hfn, isStrVal, globalsEntries, hgl, globalsGet, hg, truthy,
        hargs, iterableOf, callValue, hcall]
    rw [hbody]
    rfl

/-- C7, witness: calling undefined `missing` yields the not-found error
naming it; calling the defined function `f` on `[5]` yields result `6`. -/
theorem c7_call_resolution_witness :
    handle_command initialGlobals callMissingCmd =
      HRes.ok initialGlobals (errResp ⟨("ValueError"), "Function missing not found"⟩) ∧
      handle_command globalsWithF callF5 =
        HRes.ok globalsWithF (okRespWith (PyVal.int 6)) :=
  ⟨(c7_call_resolution initialGlobals
        [("id", PyVal.int 3), ("type", PyVal.str ("call")), ("fn", PyVal.str ("missing"))]
        ("missing") rfl rfl rfl).1 rfl rfl rfl rfl rfl,
    (c7_call_resolution globalsWithF
        [("id", PyVal.int 2), ("type", PyVal.str ("call")), ("fn", PyVal.str ("f")),
          ("args", PyVal.list [PyVal.int 5])]
        ("f") rfl rfl rfl).2 ("f") ["x"]
      (PyExpr.add (PyExpr.name ("x")) (PyExpr.lit 1)) [PyVal.int 5] (PyVal.int 6) rfl rfl
      rfl⟩

/-- A response built by the `except` clause's happy path carries status
`error`. -/
theorem catchFinish_status (g : Ctx) (e : PyErr) (errv r : PyVal)
    (h : catchFinish g e errv = Except.ok r) :
    respField r ("status") = some (PyVal.str ("error")) := by
  unfold catchFinish at h
  split at h
  · simp only [Except.ok.injEq] at h
    rw [← h]
    rfl
  · simp at h
  · simp at h

/-- Any response the `except` clause produces carries status `error`: a
status-ok response can only come from the `try` body itself. -/
theorem catchClause_status (g : Ctx) (e : PyErr) (r : PyVal)
    (h : catchClause g e = Except.ok r) :
    respField r ("status") = some (PyVal.str ("error")) := by
  unfold catchClause at h
  cases hE : lookupEntries g ("Exception") with
  | some v => rw [hE] at h; simp at h
  | none =>
      rw [hE] at h
      cases hS : lookupEntries g ("str") with
      | none =>
          rw [hS] at h
          exact catchFinish_status g e _ r h
      | some sv =>
          rw [hS] at h
          cases sv with
          | func f ps b =>
              dsimp only at h
              cases hcu : callUserFunc g f ps b [PyVal.exc e] with
              | error e2 => rw [hcu] at h; simp at h
              | ok v =>
                  rw [hcu] at h
                  exact catchFinish_status g e _ r h
          | builtin bn =>
              dsimp only at h
              split at h <;> simp at h
          | none => simp at h
          | bool b2 => simp at h
          | int n => simp at h
          | str s => simp at h
          | list xs => simp at h
          | dict es => simp at h
          | module mm => simp at h
          | exc e2 => simp at h

/-- A status-ok handler result can only come from the `try` body. -/
theorem handleCatch_ok_inv (g : Ctx) (b : BodyRes) (g2 : Ctx) (resp : PyVal)
    (h : handleCatch g b = HRes.ok g2 resp)
    (hst : respField resp ("status") = some (PyVal.str ("ok"))) :
    b = BodyRes.bOk g2 resp := by
  cases b with
  | bOk gx rx => simpa [handleCatch] using h
  | bMain d => simp [handleCatch] at h
  | bErr e =>
      simp only [handleCatch] at h
      cases hcc : catchClause g e with
      | error e2 => rw [hcc] at h; simp at h
      | ok respd =>
          rw [hcc] at h
          dsimp only at h
          simp only [HRes.ok.injEq] at h
          have hs := catchClause_status g e respd hcc
          rw [← h.2] at hst
          rw [hs] at hst
          simp at hst

/-- C8.  On a status-ok response: an `exec` command's response is exactly
the status-only dict, with no `result` field; an `eval` command's response
carries a `result` field equal to the value its code evaluated to; a `call`
command's response carries a `result` field equal to the invocation's
return value; and concretely, `eval` of `1+1` answers result `2`. -/
theorem c8_result_presence :
    (∀ (g g2 : Ctx) (m : List (String × PyVal)) (resp : PyVal),
      lookupEntries m ("type") = some (PyVal.str ("exec")) →
      handle_command g (PyVal.dict m) = HRes.ok g2 resp →
      respField resp ("status") = some (PyVal.str ("ok")) →
      resp = okResp ∧ respField resp ("result") = Option.none) ∧
      (∀ (g g2 : Ctx) (m : List (String × PyVal)) (resp : PyVal),
        lookupEntries m ("type") = some (PyVal.str ("eval")) →
        handle_command g (PyVal.dict m) = HRes.ok g2 resp →
        respField resp ("status") = some (PyVal.str ("ok")) →
        ∃ code v, lookupEntries m ("code") = some (PyVal.str code) ∧
          pyEvalStr code g = Except.ok v ∧ resp = okRespWith v ∧
          respField resp ("result") = some v) ∧
      (∀ (g g2 : Ctx) (m : List (String × PyVal)) (resp : PyVal),
        lookupEntries m ("type") = some (PyVal.str ("call")) →
        handle_command g (PyVal.dict m) = HRes.ok g2 resp →
        respField resp ("status") = some (PyVal.str ("ok")) →
        ∃ rv, resp = okRespWith rv ∧ respField resp ("result") = some rv) ∧
      main [some evalOnePlusOne] =
        ([PyVal.dict
            [("status", PyVal.str ("ok")), ("result", PyVal.int 2),
              ("id", PyVal.int 4)]],
          Term.eof) := by
  refine ⟨?_, ?_, ?_, rfl⟩
  · intro g g2 m resp ht hcmd hst
    rw [handle_command_eq] at hcmd
    have hb := handleCatch_ok_inv g _ g2 resp hcmd hst
    unfold handleBody at hb
    simp [getItem, ht, isStrVal] at hb
    cases hcode : lookupEntries m ("code") with
    | none => simp [hcode] at hb
    | some c =>
        cases c with
        | str code =>
            simp [hcode] at hb
            cases hex2 : pyExecStr code g with
            | error e => simp [hex2] at hb
            | ok gx =>
                simp [hex2, BodyRes.bOk.injEq] at hb
                obtain ⟨hbg, hbr⟩ := hb
                subst hbr
                exact ⟨rfl, rfl⟩
        | none => simp [hcode] at hb
        | bool b => simp [hcode] at hb
        | int n => simp [hcode] at hb
        | list xs => simp [hcode] at hb
        | dict es => simp [hcode] at hb
        | func f ps body => simp [hcode] at hb
        | builtin f => simp [hcode] at hb
        | module mm => simp [hcode] at hb
        | exc e => simp [hcode] at hb
  · intro g g2 m resp ht hcmd hst
    rw [handle_command_eq] at hcmd
    have hb := handleCatch_ok_inv g _ g2 resp hcmd hst
    unfold handleBody at hb
    simp [getItem, ht, isStrVal] at hb
    cases hcode : lookupEntries m ("code") with
    | none => simp [hcode] at hb
    | some c =>
        cases c with
        | str code =>
            simp [hcode] at hb
            cases hev : pyEvalStr code g with
            | error e => simp [hev] at hb
            | ok v =>
                simp [hev, BodyRes.bOk.injEq] at hb
                obtain ⟨hbg, hbr⟩ := hb
                subst hbr
                exact ⟨code, v, rfl, hev, rfl, rfl⟩
        | none => simp [hcode] at hb
        | bool b => simp [hcode] at hb
        | int n => simp [hcode] at hb
        | list xs => simp [hcode] at hb
        | dict es => simp [hcode] at hb
        | func f ps body => simp [hcode] at hb
        | builtin f => simp [hcode] at hb
        | module mm => simp [hcode] at hb
        | exc e => simp [hcode] at hb
  · intro g g2 m resp ht hcmd hst
    rw [handle_command_eq] at hcmd
    have hb := handleCatch_ok_inv g _ g2 resp hcmd hst
    unfold handleBody at hb
    simp [getItem, ht, isStrVal] at hb
    cases hge : globalsEntries (handleFuel (pySize (PyVal.dict m))) g with
    | error e => simp [hge] at hb
    | ok ns =>
        simp [hge] at hb
        cases hfn : lookupEntries m ("fn") with
        | none => simp [hfn] at hb
        | some fnv =>
            simp [hfn] at hb
            cases hgg : globalsGet ns fnv with
            | error e => simp [hgg] at hb
            | ok fo =>
                simp [hgg] at hb
                cases fo with
                | none => simp at hb
                | some funcv =>
                    cases htr : truthy funcv with
                    | false => simp [htr] at hb
                    | true =>
                        simp [htr] at hb
                        cases hargs : lookupEntries m ("args") with
                        | none => simp [hargs] at hb
                        | some av =>
                            simp [hargs] at hb
                            cases hit : iterableOf av with
                            | error e => simp [hit] at hb
                            | ok argvs =>
                                simp [hit] at hb
                                cases hcv :
                                    callValue (handleFuel (pySize (PyVal.dict m))) g
                                      funcv argvs with
                                | rErr e => simp [hcv] at hb
                                | rMain k => simp [hcv] at hb
                                | rOk g3 rv =>
                                    simp [hcv, BodyRes.bOk.injEq] at hb
                                    obtain ⟨hbg, hbr⟩ := hb
                                    subst hbr
                                    exact ⟨rv, rfl, rfl⟩

/-- C8, witness: the eval conjunct instantiated at the eval scenario. -/
theorem c8_result_presence_witness :
    ∃ code v, lookupEntries
          [("id", PyVal.int 4), ("type", PyVal.str ("eval")),
            ("code", PyVal.str ("1+1"))] ("code") = some (PyVal.str code) ∧
        pyEvalStr code initialGlobals = Except.ok v ∧
        okRespWith (PyVal.int 2) = okRespWith v ∧
        respField (okRespWith (PyVal.int 2)) ("result") = some v :=
  c8_result_presence.2.1 initialGlobals initialGlobals
    [("id", PyVal.int 4), ("type", PyVal.str ("eval")), ("code", PyVal.str ("1+1"))]
    (okRespWith (PyVal.int 2)) rfl rfl rfl

/-- Whether a decoded value is a JSON object (a Python dict). -/
def isDictV : PyVal → Bool
  | PyVal.dict _ => true
  | _ => false

/-- C9.  The id-attach and serialization steps of main lie outside every
error handler: a line decoding to valid JSON that is not an object makes
`cmd.get(\x27id\x27)` raise an uncaught `AttributeError` — the loop dies
with no response for that line and the rest of the input unread; and for
every command whose response (id attached) is not JSON-serializable —
in particular every `eval`/`call` producing an unserializable result —
`json.dumps` raises an uncaught `TypeError` with the same fatal outcome;
concretely so for `eval` of the name `json`. -/
theorem c9_outside_handler :
    (∀ (g : Ctx) (v : PyVal) (rest : List (Option PyVal)),
      lookupEntries g ("json") = some (PyVal.module ("json")) →
      lookupEntries g ("traceback") = some (PyVal.module ("traceback")) →
      lookupEntries g ("handle_command") = some (PyVal.builtin ("handle_command")) →
      lookupEntries g ("str") = Option.none →
      lookupEntries g ("Exception") = Option.none →
      isDictV v = false →
      mainLoop g (some v :: rest) =
        ([],
          Term.crashed
            ⟨("AttributeError"),
              "\x27" ++ typeName v ++ "\x27 object has no attribute \x27get\x27"⟩)) ∧
      (∀ (g g2 : Ctx) (m : List (String × PyVal)) (resp resp2 : PyVal)
          (rest : List (Option PyVal)),
        lookupEntries g ("json") = some (PyVal.module ("json")) →
        lookupEntries g ("handle_command") = some (PyVal.builtin ("handle_command")) →
        lookupEntries g2 ("json") = some (PyVal.module ("json")) →
        handle_command g (PyVal.dict m) = HRes.ok g2 resp →
        setItem resp ("id") ((lookupEntries m ("id")).getD PyVal.none) = Except.ok resp2 →
        serializable resp2 = false →
        mainLoop g (some (PyVal.dict m) :: rest) = ([], Term.crashed dumpsErr)) ∧
      main
          [some
            (PyVal.dict
              [("id", PyVal.int 1), ("type", PyVal.str ("eval")),
                ("code", PyVal.str ("json"))])] =
        ([], Term.crashed dumpsErr) := by
  refine ⟨?_, ?_, rfl⟩
  · intro g v rest hj htb hhc hstr hexc hd
    cases v with
    | dict es => simp [isDictV] at hd
    | none =>
        simp [mainLoop, driver, lineStep, lineExceptStep, loopExcept, finishResp,
          pyDictGet, handlerInvoke, handle_command_eq, handleBody, handleCatch,
          catchClause, catchFinish, getItem, unwindCrash, hj, htb, hhc, hstr, hexc,
          typeName]
    | bool b =>
        simp [mainLoop, driver, lineStep, lineExceptStep, loopExcept, finishResp,
          pyDictGet, handlerInvoke, handle_command_eq, handleBody, handleCatch,
          catchClause, catchFinish, getItem, unwindCrash, hj, htb, hhc, hstr, hexc,
          typeName]
    | int n =>
        simp [mainLoop, driver, lineStep, lineExceptStep, loopExcept, finishResp,
          pyDictGet, handlerInvoke, handle_command_eq, handleBody, handleCatch,
          catchClause, catchFinish, getItem, unwindCrash, hj, htb, hhc, hstr, hexc,
          typeName]
    | str s =>
        simp [mainLoop, driver, lineStep, lineExceptStep, loopExcept, finishResp,
          pyDictGet, handlerInvoke, handle_command_eq, handleBody, handleCatch,
          catchClause, catchFinish, getItem, unwindCrash, hj, htb, hhc, hstr, hexc,
          typeName]
    | list xs =>
        simp [mainLoop, driver, lineStep, lineExceptStep, loopExcept, finishResp,
          pyDictGet, handlerInvoke, handle_command_eq, handleBody, handleCatch,
          catchClause, catchFinish, getItem, unwindCrash, hj, htb, hhc, hstr, hexc,
          typeName]
    | func f ps body =>
        simp [mainLoop, driver, lineStep, lineExceptStep, loopExcept, finishResp,
          pyDictGet, handlerInvoke, handle_command_eq, handleBody, handleCatch,
          catchClause, catchFinish, getItem, unwindCrash, hj, htb, hhc, hstr, hexc,
          typeName]
    | builtin f =>
        simp [mainLoop, driver, lineStep, lineExceptStep, loopExcept, finishResp,
          pyDictGet, handlerInvoke, handle_command_eq, handleBody, handleCatch,
          catchClause, catchFinish, getItem, unwindCrash, hj, htb, hhc, hstr, hexc,
          typeName]
    | module mm =>
        simp [mainLoop, driver, lineStep, lineExceptStep, loopExcept, finishResp,
          pyDictGet, handlerInvoke, handle_command_eq, handleBody, handleCatch,
          catchClause, catchFinish, getItem, unwindCrash, hj, htb, hhc, hstr, hexc,
          typeName]
    | exc e =>
        simp [mainLoop, driver, lineStep, lineExceptStep, loopExcept, finishResp,
          pyDictGet, handlerInvoke, handle_command_eq, handleBody, handleCatch,
          catchClause, catchFinish, getItem, unwindCrash, hj, htb, hhc, hstr, hexc,
          typeName]
  · intro g g2 m resp resp2 rest hj hh hj2 hc hset hser
    have hstep : lineStep g (some (PyVal.dict m)) = StepResult.crash g2 dumpsErr := by
      simp [lineStep, handlerInvoke, hj, hh, hc, finishResp, pyDictGet, hset, hj2, hser,
        lineExceptStep, loopExcept, dumpsErr]
    simp [mainLoop, driver, hstep, unwindCrash]

/-- C9, witness: a bare-boolean line kills the loop with the second line
still unread. -/
theorem c9_outside_handler_witness :
    mainLoop initialGlobals [some (PyVal.bool true), some evalOnePlusOne] =
      ([],
        Term.crashed
          ⟨("AttributeError"), "\x27bool\x27 object has no attribute \x27get\x27"⟩) :=
  c9_outside_handler.1 initialGlobals (PyVal.bool true) [some evalOnePlusOne]
    rfl rfl rfl rfl rfl rfl

/-- The call command invoking the bridge's own handler on a nested command. -/
def callHandleCmd : PyVal :=
  PyVal.dict
    [("id", PyVal.int 1), ("type", PyVal.str ("call")),
      ("fn", PyVal.str ("handle_command")),
      ("args", PyVal.list [PyVal.dict [("type", PyVal.str ("bogus"))]])]

/-- An exec command rebinding the module-global name `json`. -/
def execJson5 : PyVal :=
  PyVal.dict
    [("id", PyVal.int 1), ("type", PyVal.str ("exec")), ("code", PyVal.str ("json = 5"))]

/-- An exec command binding a fresh name `x`. -/
def execX5 : PyVal :=
  PyVal.dict
    [("id", PyVal.int 1), ("type", PyVal.str ("exec")), ("code", PyVal.str ("x = 5"))]

/-- A call command invoking the bridge's own main on no arguments. -/
def callMainCmd : PyVal :=
  PyVal.dict
    [("id", PyVal.int 9), ("type", PyVal.str ("call")), ("fn", PyVal.str ("main")),
      ("args", PyVal.list [])]

/-- C10.  The shared execution context is the bridge module's own global
namespace: before any `exec`, the names `handle_command`, `main`, `sys`,
`json` and `traceback` already resolve; a first-command `call` can invoke
the bridge's own handle_command (answered with the nested response as
`result`) and even its `main` (whose nested loop answers the remaining
lines first, then the calling line, reordering the session); and `exec`
can rebind a name the loop itself depends on — after `exec` of `json = 5`
the loop crashes emitting nothing, while the same session with the
innocuous `x = 5` answers both commands. -/
theorem c10_globals_are_module_namespace :
    lookupEntries initialGlobals ("handle_command") =
        some (PyVal.builtin ("handle_command")) ∧
      lookupEntries initialGlobals ("main") = some (PyVal.builtin ("main")) ∧
      lookupEntries initialGlobals ("sys") = some (PyVal.module ("sys")) ∧
      lookupEntries initialGlobals ("json") = some (PyVal.module ("json")) ∧
      lookupEntries initialGlobals ("traceback") = some (PyVal.module ("traceback")) ∧
      main [some callHandleCmd] =
        ([PyVal.dict
            [("status", PyVal.str ("ok")),
              ("result",
                PyVal.dict
                  [("status", PyVal.str ("error")),
                    ("error", PyVal.str ("Unknown command"))]),
              ("id", PyVal.int 1)]],
          Term.eof) ∧
      main [some callMainCmd, some evalOnePlusOne] =
        ([PyVal.dict
            [("status", PyVal.str ("ok")), ("result", PyVal.int 2), ("id", PyVal.int 4)],
            PyVal.dict
              [("status", PyVal.str ("ok")), ("result", PyVal.none), ("id", PyVal.int 9)]],
          Term.eof) ∧
      main [some execJson5, some evalOnePlusOne] =
        ([],
          Term.crashed
            ⟨("AttributeError"), "\x27int\x27 object has no attribute \x27dumps\x27"⟩) ∧
      main [some execX5, some evalOnePlusOne] =
        ([PyVal.dict [("status", PyVal.str ("ok")), ("id", PyVal.int 1)],
            PyVal.dict
              [("status", PyVal.str ("ok")), ("result", PyVal.int 2),
                ("id", PyVal.int 4)]],
          Term.eof) :=
  ⟨rfl, rfl, rfl, rfl, rfl, rfl, rfl, rfl, rfl⟩

end Bridge
